import Mathlib

/-!
Verification development for the react-native-android-sinch bridge package.

The package has two layers:
* a TypeScript wrapper (`src/src/index.ts`, and the variant with the
  `PermissionStatus` result type whose file name is unknown, here called
  part_002) exposing `SinchFlashCall`;
* a Kotlin native module
  (`src/android/src/main/java/com/androidsinch/AndroidSinchModule.kt`).

We embed both layers shallowly: promise settlements, event emissions and
engine invocations are recorded as explicit `BridgeAction` values; the module's
mutable fields (`verification`, `verificationPromise`) become an explicit
`ModuleState`; the platform's asynchronous answers (permission dialogs,
engine signals) become explicit inputs.  External platform primitives are
modelled by their documented contracts: a JavaScript `Map.set` replaces the
value for an existing key, and `DeviceEventEmitter` keeps every registered
subscription alive (invoking all subscriptions for a name, in registration
order) until that subscription's own `remove()` is called.
-/

/-- Mirrors `isValidE164` from index.ts / part_002: the JavaScript regular
expression test of the literal pattern anchored at both ends: a leading
plus sign, one digit 1-9, then 1 to 14 further digits. -/
def isValidE164 (phoneNumber : String) : Bool :=
  match phoneNumber.data with
  | '+' :: first :: rest =>
      (decide ('1' ≤ first) && decide (first ≤ '9'))
        && (decide (1 ≤ rest.length) && decide (rest.length ≤ 14))
        && rest.all Char.isDigit
  | _ => false

/-- Mirrors the status reduction inside `requestEssentialPermissions` of
part_002 lines 198-215: `Object.values(statuses)` is the argument, and the
ordered `every` chain over the string statuses is reproduced verbatim. -/
def reduceEssential (statusValues : List String) : String :=
  if statusValues.all (fun s => s == "granted") then "granted"
  else if statusValues.all (fun s => s == "denied") then "denied"
  else if statusValues.all (fun s => s == "unavailable") then "unavailable"
  else if statusValues.all (fun s => s == "blocked") then "blocked"
  else "partial"

/-- Status strings the native layer can report for a single permission
(companion-object constants GRANTED, DENIED, UNAVAILABLE, BLOCKED of
AndroidSinchModule.kt lines 42-45). -/
def permStatusStrings : List String :=
  ["granted", "denied", "unavailable", "blocked"]

/-- Result of the native `requestEssentialPermissions` call as seen by the
TypeScript layer: either a resolved map of per-permission status strings
(insertion order preserved, as `Object.values` relies on) or a rejection. -/
inductive NativeEssential
  | resolvedMap (statuses : List (String × String))
  | rejectedNative (code : String) (message : String)
deriving DecidableEq

/-- Values with which a native single-permission promise can resolve: the
immediate paths of `requestPermission` (AndroidSinchModule.kt lines
136-142) resolve plain status strings, while `onRequestPermissionsResult`
(lines 171-195) resolves a `WritableNativeMap` of permission to status. -/
inductive PermValue
  | statusStr (s : String)
  | statusMap (m : List (String × String))
deriving DecidableEq

/-- Settlement of a native single-permission promise. -/
inductive PermOutcome
  | resolved (v : PermValue)
  | rejectedP (code : String) (message : String)
deriving DecidableEq

/-- Platform answers relevant to one single-permission request: whether a
foreground activity exists, whether the permission name is unknown to the
OS (`isPermissionUnavailable`), whether `checkSelfPermission` already
reports it granted, the dialog's `grantResults` (true means
PERMISSION_GRANTED), and `shouldShowRequestPermissionRationale` for this
permission as queried after the user's response. -/
structure PermEnv where
  hasActivity : Bool
  unavailable : Bool
  alreadyGranted : Bool
  grantResults : List Bool
  shouldShowRationale : Bool
deriving DecidableEq

/-- Full observable result of one single-permission call: how the promise
settles and how many platform permission dialogs were issued. -/
structure PermCall where
  outcome : PermOutcome
  promptsIssued : Nat
deriving DecidableEq

/-- Mirrors the per-permission status computation of
`onRequestPermissionsResult` (AndroidSinchModule.kt lines 180-191):
granted if the grant result is PERMISSION_GRANTED, else denied when the
platform says the user may be asked again, else blocked. -/
def permissionStatusOf (granted rationale : Bool) : String :=
  if granted then "granted" else if rationale then "denied" else "blocked"

/-- Mirrors the statuses map built by `onRequestPermissionsResult`
(AndroidSinchModule.kt lines 179-191).  The Kotlin code indexes
`grantResults[index]` for each prompted permission; `zip` models the
well-formed case in which the platform supplies one grant result per
prompted permission. -/
def onRequestPermissionsResult (permissions : List String)
    (grantResults : List Bool) (rationale : String → Bool) :
    List (String × String) :=
  (permissions.zip grantResults).map
    (fun pg => (pg.1, permissionStatusOf pg.2 (rationale pg.1)))

namespace AndroidSinchModule

/-- Mirrors the private `requestPermission` of AndroidSinchModule.kt lines
127-159, to which all five individual permission entry points
(`requestInternetPermission`, `requestReadCallLogPermission`,
`requestChangeNetworkStatePermission`,
`requestAccessNetworkStatePermission`, `requestReadPhoneStatePermission`)
delegate, composed with the asynchronous resolution the registered
`PermissionListener` performs.  Note: the `Callback` stored into the
`callbacks` SparseArray at lines 145-156 (which would resolve the plain
strings "granted"/"denied"/"blocked") is never read anywhere in the
module, so the prompted path's promise is actually resolved by
`onRequestPermissionsResult` (lines 171-195) with a one-entry map. -/
def requestPermission (permission : String) (env : PermEnv) : PermCall :=
  if env.hasActivity = false then
    { outcome := PermOutcome.rejectedP "E_ACTIVITY_DOES_NOT_EXIST" "Activity doesn't exist",
      promptsIssued := 0 }
  else if env.unavailable then
    { outcome := PermOutcome.resolved (PermValue.statusStr "unavailable"),
      promptsIssued := 0 }
  else if env.alreadyGranted then
    { outcome := PermOutcome.resolved (PermValue.statusStr "granted"),
      promptsIssued := 0 }
  else
    { outcome := PermOutcome.resolved (PermValue.statusMap
        (onRequestPermissionsResult [permission] env.grantResults
          (fun _ => env.shouldShowRationale))),
      promptsIssued := 1 }

end AndroidSinchModule

/-- Verification method discriminator, Kotlin `when` arms of `verifyCode`
(AndroidSinchModule.kt lines 259-263). -/
inductive VerificationMethodType
  | FLASHCALL
  | SMS
deriving DecidableEq

/-- Mirrors the `when (methodType)` parse at the top of the Kotlin
`verifyCode` (lines 259-263): only the two literal strings are
recognized. -/
def parseMethodType (s : String) : Option VerificationMethodType :=
  if s == "FLASHCALL" then some VerificationMethodType.FLASHCALL
  else if s == "SMS" then some VerificationMethodType.SMS
  else none

/-- Authorization credential built by the Kotlin `initVerification`
(AndroidSinchModule.kt lines 200-204). -/
inductive AuthorizationMethod
  | appKeyAuthorizationMethod (appKey : String)
  | basicAuthorizationMethod (appKey : String) (appSecret : String)
deriving DecidableEq

/-- Mirrors the `appSecret.isNullOrEmpty()` branch of the Kotlin
`initVerification` (lines 200-204): a null or empty secret selects
`AppKeyAuthorizationMethod`, anything else `BasicAuthorizationMethod`. -/
def authorizationMethodFor (appKey : String) (appSecret : Option String) :
    AuthorizationMethod :=
  match appSecret with
  | none => AuthorizationMethod.appKeyAuthorizationMethod appKey
  | some s =>
      if s = "" then AuthorizationMethod.appKeyAuthorizationMethod appKey
      else AuthorizationMethod.basicAuthorizationMethod appKey s

/-- Mutable fields of the Kotlin module that the verification entry points
read and write: `verification` (true when the `Verification` object is
non-null, lines 49 and 217-243) and `verificationPromise` (the promise id
stored at lines 50, 215 and 271, or none when null). -/
structure ModuleState where
  verification : Bool
  verificationPromise : Option Nat
deriving DecidableEq

/-- Observable effects of the Kotlin module: promise settlements, events
emitted through `sendEvent` (lines 331-335), and calls into the external
Sinch engine. -/
inductive BridgeAction
  | resolveP (promiseId : Nat) (message : String)
  | rejectP (promiseId : Nat) (code : String) (message : String)
  | emitEvent (name : String) (payload : String)
  | engineInitiate
  | engineVerify (code : String) (methodType : VerificationMethodType)
  | engineStop
deriving DecidableEq

/-- State transition plus emitted actions of one Kotlin entry point. -/
structure KtCall where
  newState : ModuleState
  actions : List BridgeAction
deriving DecidableEq

/-- Result of the Kotlin `initVerification` (lines 197-237): the
credential and phone number put into the engine configuration, the state
after the method body ran, and the engine start. -/
structure InitResult where
  credential : AuthorizationMethod
  configNumber : String
  newState : ModuleState
  actions : List BridgeAction
deriving DecidableEq

/-- Signals the engine's `FlashCallInitializationListener` can deliver
(AndroidSinchModule.kt lines 219-232). -/
inductive InitSignal
  | onInitiated
  | onInitializationFailed (message : String)
deriving DecidableEq

/-- Signals the engine's `VerificationListener` can deliver after a
`verify` call (AndroidSinchModule.kt lines 309-324). -/
inductive VerifySignal
  | onVerified
  | onVerificationFailed (message : String)
deriving DecidableEq

namespace AndroidSinchModule

/-- Mirrors the Kotlin `initVerification` body (lines 197-237): builds the
credential from `appSecret.isNullOrEmpty()`, stores the caller's promise
into `verificationPromise`, assigns the freshly built `Verification`
object, and calls `initiate()` on the engine.  The previous state is
overwritten wholesale. -/
def initVerification (_st : ModuleState) (p : Nat)
    (phoneNumber appKey : String) (appSecret : Option String) : InitResult :=
  { credential := authorizationMethodFor appKey appSecret,
    configNumber := phoneNumber,
    newState := { verification := true, verificationPromise := some p },
    actions := [BridgeAction.engineInitiate] }

/-- Mirrors the anonymous `FlashCallInitializationListener` (lines
219-232): `onInitiated` resolves the outstanding promise, if any, and
always emits `verificationInitiated`; `onInitializationFailed` rejects
the outstanding promise, if any, with the engine's message and always
emits `verificationFailed`.  (Both bodies use the null-safe
`verificationPromise?.` call, so the event emission is unconditional.) -/
def initListener (st : ModuleState) (sig : InitSignal) : List BridgeAction :=
  match sig with
  | InitSignal.onInitiated =>
      (match st.verificationPromise with
       | some vp => [BridgeAction.resolveP vp "Verification initiated"]
       | none => [])
        ++ [BridgeAction.emitEvent "verificationInitiated" "Verification process started"]
  | InitSignal.onInitializationFailed m =>
      (match st.verificationPromise with
       | some vp => [BridgeAction.rejectP vp "INITIALIZATION_FAILED"
            ("Failed to initialize verification: " ++ m)]
       | none => [])
        ++ [BridgeAction.emitEvent "verificationFailed" "Failed to initialize"]

/-- Mirrors the Kotlin `verifyCode` (lines 257-277): unrecognized method
type rejects locally; with a session object present the caller's promise
is stored and the engine's `verify` is called; with no session the call
rejects NO_VERIFICATION and emits `verificationNotInitialized`. -/
def verifyCode (st : ModuleState) (p : Nat) (code methodType : String) : KtCall :=
  match parseMethodType methodType with
  | none =>
      { newState := st,
        actions := [BridgeAction.rejectP p "INVALID_METHOD_TYPE" "Invalid verification method type"] }
  | some mt =>
      if st.verification then
        { newState := { st with verificationPromise := some p },
          actions := [BridgeAction.engineVerify code mt] }
      else
        { newState := st,
          actions := [BridgeAction.rejectP p "NO_VERIFICATION" "No verification has been initialized",
                      BridgeAction.emitEvent "verificationNotInitialized" "Verification not initialized"] }

/-- Mirrors the Kotlin `stopVerification` (lines 239-255): with a session
object present, stop the engine, null the session, resolve the stop
call's own promise, and additionally settle a still-outstanding
verification promise and emit `verificationStopped`; with no session,
resolve the stop call as a no-op. -/
def stopVerification (st : ModuleState) (p : Nat) : KtCall :=
  if st.verification then
    match st.verificationPromise with
    | some vp =>
        { newState := { verification := false, verificationPromise := none },
          actions := [BridgeAction.engineStop,
                      BridgeAction.resolveP p "Verification stopped",
                      BridgeAction.resolveP vp "Verification stopped due to explicit stop call",
                      BridgeAction.emitEvent "verificationStopped" "Verification process stopped"] }
    | none =>
        { newState := { verification := false, verificationPromise := none },
          actions := [BridgeAction.engineStop,
                      BridgeAction.resolveP p "Verification stopped"] }
  else
    { newState := st,
      actions := [BridgeAction.resolveP p "No active verification to stop"] }

/-- Mirrors the Kotlin `onVerified` callback (lines 309-314): guarded by
`verificationPromise != null`; when the guard fails, nothing at all
happens. -/
def onVerified (st : ModuleState) : List BridgeAction :=
  match st.verificationPromise with
  | some vp => [BridgeAction.resolveP vp "Successfully verified",
                BridgeAction.emitEvent "verificationSuccess" "Verification completed successfully"]
  | none => []

/-- Mirrors the Kotlin `onVerificationFailed` callback (lines 316-324):
guarded by `verificationPromise != null`; when the guard fails, nothing
at all happens. -/
def onVerificationFailed (st : ModuleState) (message : String) : List BridgeAction :=
  match st.verificationPromise with
  | some vp => [BridgeAction.rejectP vp "VERIFICATION_FAILED" ("Verification failed: " ++ message),
                BridgeAction.emitEvent "verificationFailed" "Verification failed"]
  | none => []

/-- Mirrors the Kotlin `onVerificationEvent` callback (lines 326-329): it
reads no module state at all and always relays the event. -/
def onVerificationEvent (event : String) : List BridgeAction :=
  [BridgeAction.emitEvent "verificationEvent" ("Event received: " ++ event)]

end AndroidSinchModule

/-- Settlement of a native-module promise as the awaiting JavaScript
caller observes it. -/
inductive NativeSettle
  | resolvedWith (value : String)
  | rejectedWith (code : String) (message : String)
deriving DecidableEq

/-- Extracts from the recorded actions how (and whether) the promise with
the given id settles: the first resolve or reject for that id wins. -/
def settleFor (acts : List BridgeAction) (p : Nat) : Option NativeSettle :=
  acts.findSome? (fun a =>
    match a with
    | BridgeAction.resolveP q v => if q = p then some (NativeSettle.resolvedWith v) else none
    | BridgeAction.rejectP q c m => if q = p then some (NativeSettle.rejectedWith c m) else none
    | _ => none)

/-- Outcome of a promise returned by a TypeScript wrapper to the host:
fulfilled with a string, fulfilled with a caught error object (the
`catch (err) { return err; }` pattern of part_002), or rejected (only the
local E.164 throw produces this). -/
inductive JsOutcome
  | fulfilled (value : String)
  | fulfilledError (code : String) (message : String)
  | rejectedJs (message : String)
deriving DecidableEq

/-- True exactly on the rejected constructor. -/
def isRejectedJs : JsOutcome → Bool
  | JsOutcome.rejectedJs _ => true
  | _ => false

/-- Mirrors `try { return await native(...) } catch (err) { return err; }`
of part_002: a native resolution is passed through, a native rejection is
caught and returned as the fulfillment value; a promise that never
settles stays pending (none). -/
def awaitCatch (s : Option NativeSettle) : Option JsOutcome :=
  match s with
  | some (NativeSettle.resolvedWith v) => some (JsOutcome.fulfilled v)
  | some (NativeSettle.rejectedWith c m) => some (JsOutcome.fulfilledError c m)
  | none => none

/-- Everything observable about one TypeScript verification call: how the
host-visible promise settles, the credential the native layer built (none
when the native layer was never reached), and the recorded native-side
actions. -/
structure TsCallResult where
  outcome : Option JsOutcome
  credential : Option AuthorizationMethod
  nativeActions : List BridgeAction
deriving DecidableEq

namespace SinchFlashCall

/-- Mirrors `requestEssentialPermissions` of part_002 lines 193-224: on
Android with the native module linked, await the native statuses map,
take `Object.values`, and reduce; a native rejection is caught and mapped
to "error"; off Android the call resolves "unavailable". -/
def requestEssentialPermissions (android : Bool) (native : NativeEssential) : String :=
  if android then
    match native with
    | NativeEssential.resolvedMap statuses => reduceEssential (statuses.map Prod.snd)
    | NativeEssential.rejectedNative _ _ => "error"
  else "unavailable"

/-- Mirrors `initVerification` of part_002 lines 233-258 composed with the
Kotlin layer and the engine's initialization signal: the E.164 check
throws before any native or engine call; on Android the native
`initVerification` runs and the initialization listener fires with the
given signal; the `catch` returns a native rejection as the fulfillment
value.  (`appSecret` defaults to the empty string in TypeScript, so the
native layer always receives a non-null string.) -/
def initVerification (android : Bool) (st : ModuleState) (p : Nat)
    (phoneNumber appKey appSecret : String) (sig : InitSignal) : TsCallResult :=
  if !(isValidE164 phoneNumber) then
    { outcome := some (JsOutcome.rejectedJs "Phone number must be in E.164 format"),
      credential := none,
      nativeActions := [] }
  else if android then
    { outcome := awaitCatch (settleFor
        ((AndroidSinchModule.initVerification st p phoneNumber appKey (some appSecret)).actions
          ++ AndroidSinchModule.initListener
              (AndroidSinchModule.initVerification st p phoneNumber appKey (some appSecret)).newState
              sig) p),
      credential := some (AndroidSinchModule.initVerification st p phoneNumber appKey
        (some appSecret)).credential,
      nativeActions :=
        (AndroidSinchModule.initVerification st p phoneNumber appKey (some appSecret)).actions
          ++ AndroidSinchModule.initListener
              (AndroidSinchModule.initVerification st p phoneNumber appKey (some appSecret)).newState
              sig }
  else
    { outcome := some (JsOutcome.fulfilled "unavailable"),
      credential := none,
      nativeActions := [] }

end SinchFlashCall

/-- True when the recorded actions invoke the engine's `verify`. -/
def hasEngineVerify (acts : List BridgeAction) : Bool :=
  acts.any (fun a =>
    match a with
    | BridgeAction.engineVerify _ _ => true
    | _ => false)

namespace SinchFlashCall

/-- Mirrors `verifyCode` of part_002 lines 286-301 composed with the
Kotlin layer: on Android the native `verifyCode` runs; if and only if it
invoked the engine, the engine's verification listener later fires with
the given signal; the `catch` returns a native rejection as the
fulfillment value. -/
def verifyCode (android : Bool) (st : ModuleState) (p : Nat)
    (code methodType : String) (sig : VerifySignal) : TsCallResult :=
  if android then
    { outcome := awaitCatch (settleFor
        ((AndroidSinchModule.verifyCode st p code methodType).actions
          ++ (if hasEngineVerify (AndroidSinchModule.verifyCode st p code methodType).actions then
                (match sig with
                 | VerifySignal.onVerified =>
                     AndroidSinchModule.onVerified
                       (AndroidSinchModule.verifyCode st p code methodType).newState
                 | VerifySignal.onVerificationFailed m =>
                     AndroidSinchModule.onVerificationFailed
                       (AndroidSinchModule.verifyCode st p code methodType).newState m)
              else [])) p),
      credential := none,
      nativeActions :=
        (AndroidSinchModule.verifyCode st p code methodType).actions
          ++ (if hasEngineVerify (AndroidSinchModule.verifyCode st p code methodType).actions then
                (match sig with
                 | VerifySignal.onVerified =>
                     AndroidSinchModule.onVerified
                       (AndroidSinchModule.verifyCode st p code methodType).newState
                 | VerifySignal.onVerificationFailed m =>
                     AndroidSinchModule.onVerificationFailed
                       (AndroidSinchModule.verifyCode st p code methodType).newState m)
              else []) }
  else
    { outcome := some (JsOutcome.fulfilled "unavailable"),
      credential := none,
      nativeActions := [] }

end SinchFlashCall

/-- Resolution messages delivered to the promise with the given id, in
order. -/
def resolutionsFor (acts : List BridgeAction) (p : Nat) : List String :=
  acts.filterMap (fun a =>
    match a with
    | BridgeAction.resolveP q m => if q = p then some m else none
    | _ => none)

/-- Rejections (code, message) delivered to the promise with the given
id, in order. -/
def rejectionsFor (acts : List BridgeAction) (p : Nat) : List (String × String) :=
  acts.filterMap (fun a =>
    match a with
    | BridgeAction.rejectP q c m => if q = p then some (c, m) else none
    | _ => none)

/-- One live `DeviceEventEmitter` subscription: the emitter-internal
handle identity, the event name it listens on, and the registered
callback (identified by a number, since only identity matters here). -/
structure EmitterSubscription where
  subId : Nat
  eventName : String
  callbackId : Nat
deriving DecidableEq

/-- State of the event relay: the platform emitter's live subscriptions in
registration order, the wrapper's `activeListeners` map (JavaScript `Map`
insertion order, event name to tracked subscription handle), and a
counter producing fresh handles. -/
structure RelayState where
  emitterListeners : List EmitterSubscription
  activeListeners : List (String × Nat)
  nextSubId : Nat
deriving DecidableEq

/-- Relay state with no subscriptions, as after the module factory ran
(part_002 line 63). -/
def relayInit : RelayState :=
  { emitterListeners := [], activeListeners := [], nextSubId := 0 }

/-- Mirrors JavaScript `Map.prototype.set`: replace the value in place if
the key exists, otherwise append the new entry. -/
def mapSet (m : List (String × Nat)) (k : String) (v : Nat) : List (String × Nat) :=
  if m.any (fun kv => kv.1 == k) then
    m.map (fun kv => if kv.1 == k then (k, v) else kv)
  else m ++ [(k, v)]

/-- Callbacks the platform emitter invokes for a signal on the given
event name: every live subscription for that name, in registration order
(the `DeviceEventEmitter` contract). -/
def invokedCallbacks (st : RelayState) (event : String) : List Nat :=
  (st.emitterListeners.filter (fun s => s.eventName == event)).map
    (fun s => s.callbackId)

namespace SinchFlashCall

/-- Mirrors `addListener` of index.ts lines 274-287 (identical in
part_002 lines 324-337): on Android, register a fresh subscription with
`DeviceEventEmitter.addListener` and store its handle into the
`activeListeners` map with `set`.  The code never calls `remove()` on a
previously tracked handle for the same name, so that old subscription
stays live on the emitter. -/
def addListener (android : Bool) (st : RelayState) (event : String)
    (callbackId : Nat) : RelayState :=
  if android then
    { emitterListeners := st.emitterListeners
        ++ [{ subId := st.nextSubId, eventName := event, callbackId := callbackId }],
      activeListeners := mapSet st.activeListeners event st.nextSubId,
      nextSubId := st.nextSubId + 1 }
  else st

/-- Mirrors `removeListener` of index.ts lines 292-304: on Android, if a
handle is tracked for the name, call its `remove()` (dropping it from the
emitter) and delete the map entry; otherwise a no-op. -/
def removeListener (android : Bool) (st : RelayState) (event : String) : RelayState :=
  if android then
    match st.activeListeners.find? (fun kv => kv.1 == event) with
    | some kv =>
        { emitterListeners := st.emitterListeners.filter (fun s => s.subId ≠ kv.2),
          activeListeners := st.activeListeners.filter (fun p => ¬(p.1 == event)),
          nextSubId := st.nextSubId }
    | none => st
  else st

/-- Mirrors `removeAllListeners` of index.ts lines 309-318: on Android,
call `remove()` on every tracked handle and clear the map; subscriptions
that leaked out of the map earlier stay live on the emitter. -/
def removeAllListeners (android : Bool) (st : RelayState) : RelayState :=
  if android then
    { emitterListeners := st.emitterListeners.filter
        (fun s => st.activeListeners.all (fun kv => kv.2 ≠ s.subId)),
      activeListeners := [],
      nextSubId := st.nextSubId }
  else st

end SinchFlashCall

/-- Claim C1: for every call to requestEssentialPermissions that obtains a
per-permission status for each of the four essential permissions, the
overall result is granted iff all four statuses are granted, denied iff
all four are denied, unavailable iff all four are unavailable, blocked
iff all four are blocked, and partial in every other combination. -/
theorem essential_reduction_correct (s1 s2 s3 s4 : String)
    (h1 : s1 ∈ permStatusStrings) (h2 : s2 ∈ permStatusStrings)
    (h3 : s3 ∈ permStatusStrings) (h4 : s4 ∈ permStatusStrings) :
    (reduceEssential [s1, s2, s3, s4] = "granted" ↔
       (s1 = "granted" ∧ s2 = "granted" ∧ s3 = "granted" ∧ s4 = "granted")) ∧
    (reduceEssential [s1, s2, s3, s4] = "denied" ↔
       (s1 = "denied" ∧ s2 = "denied" ∧ s3 = "denied" ∧ s4 = "denied")) ∧
    (reduceEssential [s1, s2, s3, s4] = "unavailable" ↔
       (s1 = "unavailable" ∧ s2 = "unavailable" ∧ s3 = "unavailable" ∧ s4 = "unavailable")) ∧
    (reduceEssential [s1, s2, s3, s4] = "blocked" ↔
       (s1 = "blocked" ∧ s2 = "blocked" ∧ s3 = "blocked" ∧ s4 = "blocked")) ∧
    (reduceEssential [s1, s2, s3, s4] = "partial" ↔
       (¬(s1 = "granted" ∧ s2 = "granted" ∧ s3 = "granted" ∧ s4 = "granted") ∧
        ¬(s1 = "denied" ∧ s2 = "denied" ∧ s3 = "denied" ∧ s4 = "denied") ∧
        ¬(s1 = "unavailable" ∧ s2 = "unavailable" ∧ s3 = "unavailable" ∧ s4 = "unavailable") ∧
        ¬(s1 = "blocked" ∧ s2 = "blocked" ∧ s3 = "blocked" ∧ s4 = "blocked"))) := by
  simp only [permStatusStrings, List.mem_cons, List.mem_singleton, List.not_mem_nil,
    or_false] at h1 h2 h3 h4
  rcases h1 with rfl | rfl | rfl | rfl <;> rcases h2 with rfl | rfl | rfl | rfl <;>
    rcases h3 with rfl | rfl | rfl | rfl <;> rcases h4 with rfl | rfl | rfl | rfl <;> decide

/-- Witness for C1: the mixed combination granted, denied, granted,
granted reduces to partial. -/
theorem essential_reduction_correct_witness :
    reduceEssential ["granted", "denied", "granted", "granted"] = "partial" :=
  ((essential_reduction_correct "granted" "denied" "granted" "granted"
      (by decide) (by decide) (by decide) (by decide)).2.2.2.2).mpr (by decide)

/-- Claim C10: with an empty per-permission status collection from the
native call, requestEssentialPermissions resolves granted, because each
all-of predicate is vacuously true and the granted branch is tested
first. -/
theorem essential_empty_statuses_granted :
    SinchFlashCall.requestEssentialPermissions true (NativeEssential.resolvedMap []) =
      "granted" := by
  decide

/-- Claim C2 (code bug evaluation): a prompted single-permission request
whose dialog the user accepts resolves the promise with the one-entry
status map built by onRequestPermissionsResult, not with the plain string
"granted" that the claim (and the module's own TypeScript result type
Promise of PermissionStatus, and its dead per-request Callback at
AndroidSinchModule.kt lines 145-156) prescribe. -/
theorem requestPermission_prompted_resolves_map :
    AndroidSinchModule.requestPermission "android.permission.READ_CALL_LOG"
        { hasActivity := true, unavailable := false, alreadyGranted := false,
          grantResults := [true], shouldShowRationale := false } =
      { outcome := PermOutcome.resolved (PermValue.statusMap
          [("android.permission.READ_CALL_LOG", "granted")]),
        promptsIssued := 1 } ∧
    PermValue.statusMap [("android.permission.READ_CALL_LOG", "granted")] ≠
      PermValue.statusStr "granted" := by
  decide

/-- Counterexample to claim C4: after addListener(name, cb1) then
addListener(name, cb2), two live subscriptions exist for the name (not at
most one) and a subsequent engine signal invokes cb1 as well as cb2, so
the claim that only cb2 is invoked and never cb1 is false on the code. -/
theorem addListener_replacement_counterexample :
    invokedCallbacks
        (SinchFlashCall.addListener true
          (SinchFlashCall.addListener true relayInit "verificationSuccess" 1)
          "verificationSuccess" 2)
        "verificationSuccess" = [1, 2] ∧
    ((SinchFlashCall.addListener true
          (SinchFlashCall.addListener true relayInit "verificationSuccess" 1)
          "verificationSuccess" 2).emitterListeners.filter
        (fun s => s.eventName == "verificationSuccess")).length = 2 := by
  decide

/-- Claim C4 as amended: the second registration replaces the first only
in the activeListeners tracking map; the first subscription is never
removed from the emitter, so a subsequent engine signal on that name
invokes both cb1 and cb2, in registration order. -/
theorem addListener_second_registration (event : String) (c1 c2 : Nat) :
    (SinchFlashCall.addListener true
        (SinchFlashCall.addListener true relayInit event c1) event c2).activeListeners =
      [(event, 1)] ∧
    invokedCallbacks
        (SinchFlashCall.addListener true
          (SinchFlashCall.addListener true relayInit event c1) event c2) event =
      [c1, c2] := by
  simp [SinchFlashCall.addListener, relayInit, mapSet, invokedCallbacks]

/-- Claim C3: initVerification rejects with the format error before any
native or engine call when the phone number fails the E.164 pattern, and
for a matching number no format rejection occurs and the request reaches
the engine. -/
theorem initVerification_e164_gate (android : Bool) (st : ModuleState) (p : Nat)
    (phoneNumber appKey appSecret : String) (sig : InitSignal) :
    (isValidE164 phoneNumber = false →
       SinchFlashCall.initVerification android st p phoneNumber appKey appSecret sig =
         { outcome := some (JsOutcome.rejectedJs "Phone number must be in E.164 format"),
           credential := none, nativeActions := [] }) ∧
    (isValidE164 phoneNumber = true →
       (∀ m : String,
          (SinchFlashCall.initVerification android st p phoneNumber appKey appSecret sig).outcome ≠
            some (JsOutcome.rejectedJs m)) ∧
       (android = true →
          BridgeAction.engineInitiate ∈
            (SinchFlashCall.initVerification android st p phoneNumber appKey
              appSecret sig).nativeActions)) := by
  constructor
  · intro h
    simp [SinchFlashCall.initVerification, h]
  · intro h
    constructor
    · intro m
      cases android <;> cases sig <;>
        simp [SinchFlashCall.initVerification, h, AndroidSinchModule.initVerification,
          AndroidSinchModule.initListener, settleFor, awaitCatch]
    · intro ha
      subst ha
      simp [SinchFlashCall.initVerification, h, AndroidSinchModule.initVerification]

/-- Witness for C3: a number missing its leading plus sign is rejected
with no native action, and a well-formed number reaches the engine. -/
theorem initVerification_e164_gate_witness :
    SinchFlashCall.initVerification true { verification := false, verificationPromise := none } 0
        "12051111111" "key" "" InitSignal.onInitiated =
      { outcome := some (JsOutcome.rejectedJs "Phone number must be in E.164 format"),
        credential := none, nativeActions := [] } ∧
    BridgeAction.engineInitiate ∈
      (SinchFlashCall.initVerification true { verification := false, verificationPromise := none } 0
        "+12051111111" "key" "" InitSignal.onInitiated).nativeActions :=
  ⟨(initVerification_e164_gate true { verification := false, verificationPromise := none } 0
      "12051111111" "key" "" InitSignal.onInitiated).1 (by decide),
   ((initVerification_e164_gate true { verification := false, verificationPromise := none } 0
      "+12051111111" "key" "" InitSignal.onInitiated).2 (by decide)).2 rfl⟩

/-- Counterexample to claim C5: with the engine signalling an
initialization failure, the host-visible promise returned by the
TypeScript initVerification is fulfilled (with the caught error as its
value), not rejected, because the wrapper's catch block returns the
error. -/
theorem engine_failure_fulfilled_counterexample :
    (SinchFlashCall.initVerification true { verification := false, verificationPromise := none } 7
        "+12051111111" "key" "" (InitSignal.onInitializationFailed "network down")).outcome =
      some (JsOutcome.fulfilledError "INITIALIZATION_FAILED"
        "Failed to initialize verification: network down") ∧
    ((SinchFlashCall.initVerification true { verification := false, verificationPromise := none } 7
        "+12051111111" "key" "" (InitSignal.onInitializationFailed "network down")).outcome.map
      isRejectedJs) = some false := by
  decide

/-- Claim C5 as amended: when the engine signals an initialization
failure during initVerification or a verification failure during
verifyCode, the native-module promise is rejected carrying the engine's
failure reason and a verificationFailed event is relayed to listeners;
the JavaScript wrapper, however, catches that rejection and fulfills the
host-visible promise with the caught error as its value. -/
theorem engine_failures_reject_native_fulfill_js (st : ModuleState) (p : Nat)
    (phoneNumber appKey appSecret code methodType reason : String)
    (mt : VerificationMethodType)
    (hv : isValidE164 phoneNumber = true)
    (hm : parseMethodType methodType = some mt)
    (hs : st.verification = true) :
    settleFor (SinchFlashCall.initVerification true st p phoneNumber appKey appSecret
        (InitSignal.onInitializationFailed reason)).nativeActions p =
      some (NativeSettle.rejectedWith "INITIALIZATION_FAILED"
        ("Failed to initialize verification: " ++ reason)) ∧
    BridgeAction.emitEvent "verificationFailed" "Failed to initialize" ∈
      (SinchFlashCall.initVerification true st p phoneNumber appKey appSecret
        (InitSignal.onInitializationFailed reason)).nativeActions ∧
    (SinchFlashCall.initVerification true st p phoneNumber appKey appSecret
        (InitSignal.onInitializationFailed reason)).outcome =
      some (JsOutcome.fulfilledError "INITIALIZATION_FAILED"
        ("Failed to initialize verification: " ++ reason)) ∧
    settleFor (SinchFlashCall.verifyCode true st p code methodType
        (VerifySignal.onVerificationFailed reason)).nativeActions p =
      some (NativeSettle.rejectedWith "VERIFICATION_FAILED"
        ("Verification failed: " ++ reason)) ∧
    BridgeAction.emitEvent "verificationFailed" "Verification failed" ∈
      (SinchFlashCall.verifyCode true st p code methodType
        (VerifySignal.onVerificationFailed reason)).nativeActions ∧
    (SinchFlashCall.verifyCode true st p code methodType
        (VerifySignal.onVerificationFailed reason)).outcome =
      some (JsOutcome.fulfilledError "VERIFICATION_FAILED"
        ("Verification failed: " ++ reason)) := by
  refine ⟨?_, ?_, ?_, ?_, ?_, ?_⟩ <;>
    simp [SinchFlashCall.initVerification, SinchFlashCall.verifyCode, hv, hm, hs,
      AndroidSinchModule.initVerification, AndroidSinchModule.initListener,
      AndroidSinchModule.verifyCode, AndroidSinchModule.onVerificationFailed,
      hasEngineVerify, settleFor, awaitCatch]

/-- Witness for C5 as amended: concrete init failure rejecting the native
promise, and concrete verify failure fulfilling the host promise with the
caught error. -/
theorem engine_failures_reject_native_fulfill_js_witness :
    settleFor (SinchFlashCall.initVerification true
        { verification := true, verificationPromise := none } 3
        "+12051111111" "key" "" (InitSignal.onInitializationFailed "boom")).nativeActions 3 =
      some (NativeSettle.rejectedWith "INITIALIZATION_FAILED"
        ("Failed to initialize verification: " ++ "boom")) ∧
    (SinchFlashCall.verifyCode true { verification := true, verificationPromise := none } 3
        "12345" "FLASHCALL" (VerifySignal.onVerificationFailed "boom")).outcome =
      some (JsOutcome.fulfilledError "VERIFICATION_FAILED"
        ("Verification failed: " ++ "boom")) :=
  ⟨(engine_failures_reject_native_fulfill_js
      { verification := true, verificationPromise := none } 3 "+12051111111" "key" "" "12345"
      "FLASHCALL" "boom" VerificationMethodType.FLASHCALL (by decide) (by decide) rfl).1,
   (engine_failures_reject_native_fulfill_js
      { verification := true, verificationPromise := none } 3 "+12051111111" "key" "" "12345"
      "FLASHCALL" "boom" VerificationMethodType.FLASHCALL (by decide) (by decide)
      rfl).2.2.2.2.2⟩

/-- Claim C6: onVerified and onVerificationFailed arriving with no
outstanding verification promise are dropped entirely (no settlement, no
event), while onVerificationEvent reads no module state and is always
relayed as a verificationEvent. -/
theorem engine_callbacks_dropped_without_pending (st : ModuleState) (reason event : String)
    (h : st.verificationPromise = none) :
    AndroidSinchModule.onVerified st = [] ∧
    AndroidSinchModule.onVerificationFailed st reason = [] ∧
    AndroidSinchModule.onVerificationEvent event =
      [BridgeAction.emitEvent "verificationEvent" ("Event received: " ++ event)] := by
  refine ⟨?_, ?_, rfl⟩ <;>
    simp [AndroidSinchModule.onVerified, AndroidSinchModule.onVerificationFailed, h]

/-- Witness for C6: with no outstanding promise the two lifecycle
callbacks produce no action at all. -/
theorem engine_callbacks_dropped_without_pending_witness :
    AndroidSinchModule.onVerified { verification := false, verificationPromise := none } = [] ∧
    AndroidSinchModule.onVerificationFailed
      { verification := false, verificationPromise := none } "x" = [] :=
  ⟨(engine_callbacks_dropped_without_pending
      { verification := false, verificationPromise := none } "x" "E" rfl).1,
   (engine_callbacks_dropped_without_pending
      { verification := false, verificationPromise := none } "x" "E" rfl).2.1⟩

/-- Claim C7: verifyCode with a recognized method type and no active
session rejects with the NO_VERIFICATION reason, emits
verificationNotInitialized exactly once, leaves the module state
unchanged, and never invokes the engine (the action list contains exactly
the rejection and the single event, and nothing else). -/
theorem verifyCode_no_session_rejects (st : ModuleState) (p : Nat)
    (code methodType : String) (mt : VerificationMethodType)
    (hm : parseMethodType methodType = some mt)
    (hs : st.verification = false) :
    AndroidSinchModule.verifyCode st p code methodType =
      { newState := st,
        actions := [BridgeAction.rejectP p "NO_VERIFICATION" "No verification has been initialized",
                    BridgeAction.emitEvent "verificationNotInitialized"
                      "Verification not initialized"] } := by
  simp [AndroidSinchModule.verifyCode, hm, hs]

/-- Witness for C7: concrete no-session verifyCode call with method type
FLASHCALL. -/
theorem verifyCode_no_session_rejects_witness :
    AndroidSinchModule.verifyCode { verification := false, verificationPromise := none } 5
        "12345" "FLASHCALL" =
      { newState := { verification := false, verificationPromise := none },
        actions := [BridgeAction.rejectP 5 "NO_VERIFICATION" "No verification has been initialized",
                    BridgeAction.emitEvent "verificationNotInitialized"
                      "Verification not initialized"] } :=
  verifyCode_no_session_rejects { verification := false, verificationPromise := none } 5
    "12345" "FLASHCALL" VerificationMethodType.FLASHCALL (by decide) rfl

/-- Claim C8: stopVerification always resolves its own promise and never
rejects it; with a session active the first of two consecutive calls
resolves "Verification stopped" and the second resolves the distinct
"No active verification to stop", and the two messages are unequal. -/
theorem stopVerification_messages (st : ModuleState) (p1 p2 : Nat)
    (hs : st.verification = true) (hp : st.verificationPromise ≠ some p1) :
    (∀ (s : ModuleState) (q : Nat),
        rejectionsFor (AndroidSinchModule.stopVerification s q).actions q = [] ∧
        resolutionsFor (AndroidSinchModule.stopVerification s q).actions q ≠ []) ∧
    resolutionsFor (AndroidSinchModule.stopVerification st p1).actions p1 =
      ["Verification stopped"] ∧
    resolutionsFor
        (AndroidSinchModule.stopVerification
          (AndroidSinchModule.stopVerification st p1).newState p2).actions p2 =
      ["No active verification to stop"] ∧
    ("Verification stopped" : String) ≠ "No active verification to stop" := by
  refine ⟨?_, ?_, ?_, by decide⟩
  · intro s q
    cases hsv : s.verification <;> cases hvp : s.verificationPromise <;>
      simp [AndroidSinchModule.stopVerification, resolutionsFor, rejectionsFor, hsv, hvp]
  · cases hvp : st.verificationPromise with
    | none => simp [AndroidSinchModule.stopVerification, hs, hvp, resolutionsFor]
    | some vp =>
        have hne : vp ≠ p1 := by
          intro hcontra
          exact hp (by rw [hvp, hcontra])
        simp [AndroidSinchModule.stopVerification, hs, hvp, resolutionsFor, hne]
  · cases hvp : st.verificationPromise <;>
      simp [AndroidSinchModule.stopVerification, hs, hvp, resolutionsFor]

/-- Witness for C8: concrete double stop starting from an active
session. -/
theorem stopVerification_messages_witness :
    resolutionsFor (AndroidSinchModule.stopVerification
        { verification := true, verificationPromise := none } 1).actions 1 =
      ["Verification stopped"] ∧
    resolutionsFor
        (AndroidSinchModule.stopVerification
          (AndroidSinchModule.stopVerification
            { verification := true, verificationPromise := none } 1).newState 2).actions 2 =
      ["No active verification to stop"] :=
  ⟨(stopVerification_messages { verification := true, verificationPromise := none } 1 2 rfl
      (by decide)).2.1,
   (stopVerification_messages { verification := true, verificationPromise := none } 1 2 rfl
      (by decide)).2.2.1⟩

/-- Claim C9: with a valid phone number, initVerification builds an
app-key-only credential when the secret is empty (the TypeScript default
for an absent secret) and a key-plus-secret credential when the secret is
a non-empty string. -/
theorem initVerification_credential_choice (st : ModuleState) (p : Nat)
    (phoneNumber appKey appSecret : String) (sig : InitSignal)
    (hv : isValidE164 phoneNumber = true) :
    (appSecret = "" →
       (SinchFlashCall.initVerification true st p phoneNumber appKey appSecret sig).credential =
         some (AuthorizationMethod.appKeyAuthorizationMethod appKey)) ∧
    (appSecret ≠ "" →
       (SinchFlashCall.initVerification true st p phoneNumber appKey appSecret sig).credential =
         some (AuthorizationMethod.basicAuthorizationMethod appKey appSecret)) := by
  constructor <;> intro h <;>
    simp [SinchFlashCall.initVerification, hv, AndroidSinchModule.initVerification,
      authorizationMethodFor, h]

/-- Witness for C9: an empty secret yields the app-key-only credential
and a non-empty secret yields the key-plus-secret credential. -/
theorem initVerification_credential_choice_witness :
    (SinchFlashCall.initVerification true { verification := false, verificationPromise := none } 0
        "+12051111111" "key" "" InitSignal.onInitiated).credential =
      some (AuthorizationMethod.appKeyAuthorizationMethod "key") ∧
    (SinchFlashCall.initVerification true { verification := false, verificationPromise := none } 0
        "+12051111111" "key" "secret" InitSignal.onInitiated).credential =
      some (AuthorizationMethod.basicAuthorizationMethod "key" "secret") :=
  ⟨(initVerification_credential_choice { verification := false, verificationPromise := none } 0
      "+12051111111" "key" "" InitSignal.onInitiated (by decide)).1 rfl,
   (initVerification_credential_choice { verification := false, verificationPromise := none } 0
      "+12051111111" "key" "secret" InitSignal.onInitiated (by decide)).2 (by decide)⟩
